import Mathlib

/-!
Shallow embedding of the listing-creation pipeline of `src/main.py`
(the convergent, most complete variant of the repository): the Gemini
extraction helper `analyze_image_with_gemini`, the three eBay stage
helpers `upload_image_to_ebay`, `create_inventory_item`, `create_offer`,
and the FastAPI orchestrator `upload_and_analyze`.

Strings are modelled as `List Char`.  The remote world (Gemini response,
HTTP statuses, response-body fields, the generated uuid) is an explicit
environment record; each helper returns its result together with the
list of remote calls it performed, so call-order and call-count
properties can be stated.
-/

namespace EbayLister

/-- JSON values as produced by the Python function `json.loads`.
Finite numbers are modelled as rationals (the int/float distinction of
Python is irrelevant to every property stated below).  The last three
constructors are the non-finite floats that the default
`parse_constant` of the `json` module produces for the literals `NaN`,
`Infinity` and `-Infinity`, which `json.loads` accepts by default. -/
inductive Json where
  | null
  | bool (b : Bool)
  | num (q : ℚ)
  | str (s : List Char)
  | arr (xs : List Json)
  | obj (kvs : List (List Char × Json))
  | nan
  | infinity
  | negInfinity

/-- Fuel-indexed worker for `pyReplace`.  With a non-empty pattern every
step consumes at least one character, so fuel equal to the input length
is always sufficient and the fuel-exhausted case is unreachable. -/
def pyReplaceAux (pat rep : List Char) : Nat → List Char → List Char
  | 0, l => l
  | _ + 1, [] => []
  | fuel + 1, c :: cs =>
    if pat ≠ [] ∧ pat.isPrefixOf (c :: cs) then
      rep ++ pyReplaceAux pat rep fuel ((c :: cs).drop pat.length)
    else
      c :: pyReplaceAux pat rep fuel cs

/-- Python `str.replace(pat, rep)`: replace every non-overlapping
occurrence of `pat`, scanning left to right.  Both call sites of the
source use a non-empty pattern. -/
def pyReplace (pat rep l : List Char) : List Char :=
  pyReplaceAux pat rep l.length l

/-- Whitespace stripped by Python `str.strip()`: the characters for
which `str.isspace` holds, i.e. 0x09 to 0x0D, 0x1C to 0x1F, the space,
0x85, 0xA0, 0x1680, 0x2000 to 0x200A, 0x2028, 0x2029, 0x202F, 0x205F
and 0x3000. -/
def isPyWs (c : Char) : Bool :=
  decide ((9 ≤ c.toNat ∧ c.toNat ≤ 13) ∨ (28 ≤ c.toNat ∧ c.toNat ≤ 31) ∨
    c.toNat = 32 ∨ c.toNat = 133 ∨ c.toNat = 160 ∨ c.toNat = 5760 ∨
    (8192 ≤ c.toNat ∧ c.toNat ≤ 8202) ∨ c.toNat = 8232 ∨ c.toNat = 8233 ∨
    c.toNat = 8239 ∨ c.toNat = 8287 ∨ c.toNat = 12288)

/-- Python `str.strip()`. -/
def pyStrip (l : List Char) : List Char :=
  ((l.dropWhile isPyWs).reverse.dropWhile isPyWs).reverse

/-- The cleaning performed on the model response at src/main.py line 62:
two chained replace calls that delete every occurrence of the markers
(first the json-tagged fence, then the bare fence) from the response
text, followed by a strip of surrounding whitespace. -/
def cleanText (t : List Char) : List Char :=
  pyStrip (pyReplace "```".toList [] (pyReplace "```json".toList [] t))

/-- JSON whitespace as skipped by the `json` module scanner. -/
def jsonWs (c : Char) : Bool :=
  c = ' ' || c = '\t' || c = '\n' || c = '\x0d'

/-- Hexadecimal digit value, for `\uXXXX` escapes. -/
def hexVal (c : Char) : Option Nat :=
  if '0' ≤ c ∧ c ≤ '9' then some (c.toNat - '0'.toNat)
  else if 'a' ≤ c ∧ c ≤ 'f' then some (c.toNat - 'a'.toNat + 10)
  else if 'A' ≤ c ∧ c ≤ 'F' then some (c.toNat - 'A'.toNat + 10)
  else none

/-- Body of a JSON string after the opening quote: returns the decoded
characters and the input remaining after the closing quote.  Mirrors the
strict scanner of the `json` module: escape sequences are decoded and a
raw control character is an error. -/
def parseStringBody (fuel : Nat) (l : List Char) : Option (List Char × List Char) :=
  match fuel, l with
  | 0, _ => none
  | _, [] => none
  | fuel + 1, c :: rest =>
    if c = '"' then some ([], rest)
    else if c = '\\' then
      match rest with
      | [] => none
      | e :: r2 =>
        if e = 'u' then
          match r2 with
          | h1 :: h2 :: h3 :: h4 :: r3 =>
            match hexVal h1, hexVal h2, hexVal h3, hexVal h4 with
            | some a, some b, some c2, some d =>
              (parseStringBody fuel r3).map
                (fun p => (Char.ofNat (((a * 16 + b) * 16 + c2) * 16 + d) :: p.1, p.2))
            | _, _, _, _ => none
          | _ => none
        else
          match
            (if e = '"' then some '"'
             else if e = '\\' then some '\\'
             else if e = '/' then some '/'
             else if e = 'b' then some (Char.ofNat 8)
             else if e = 'f' then some (Char.ofNat 12)
             else if e = 'n' then some '\n'
             else if e = 'r' then some (Char.ofNat 13)
             else if e = 't' then some '\t'
             else none) with
          | some d => (parseStringBody fuel r2).map (fun p => (d :: p.1, p.2))
          | none => none
    else if c.toNat < 32 then none
    else (parseStringBody fuel rest).map (fun p => (c :: p.1, p.2))

/-- Digits at the front of the input. -/
def takeDigits (l : List Char) : List Char × List Char :=
  (l.takeWhile Char.isDigit, l.dropWhile Char.isDigit)

/-- Value of a digit list. -/
def digitsVal (ds : List Char) : Nat :=
  ds.foldl (fun a c => a * 10 + (c.toNat - '0'.toNat)) 0

/-- A JSON number, per the strict regular expression of the `json`
module scanner: `-? (0 | [1-9][0-9]*) (\.[0-9]+)? ([eE][-+]?[0-9]+)?`.
A fractional point or exponent marker not followed by a digit is left
unconsumed, exactly as the regular expression leaves it. -/
def parseNumber (l : List Char) : Option (Json × List Char) :=
  let (neg, l1) := match l with
    | '-' :: r => (true, r)
    | _ => (false, l)
  match l1 with
  | [] => none
  | c :: _ =>
    if ¬ c.isDigit then none
    else
      let (intDs, l2) :=
        if c = '0' then (['0'], l1.drop 1) else takeDigits l1
      let (fracDs, l3) :=
        match l2 with
        | '.' :: r =>
          let (ds, r2) := takeDigits r
          if ds = [] then ([], l2) else (ds, r2)
        | _ => ([], l2)
      let (expVal, l4) :=
        match l3 with
        | e :: r =>
          if e = 'e' ∨ e = 'E' then
            let (esign, r2) := match r with
              | '-' :: r3 => ((-1 : Int), r3)
              | '+' :: r3 => ((1 : Int), r3)
              | _ => ((1 : Int), r)
            let (eds, r4) := takeDigits r2
            if eds = [] then ((0 : Int), l3)
            else (esign * (digitsVal eds : Int), r4)
          else ((0 : Int), l3)
        | [] => ((0 : Int), l3)
      let n0 : Nat := digitsVal intDs * 10 ^ fracDs.length + digitsVal fracDs
      let numer : Int :=
        (if neg then -(n0 : Int) else (n0 : Int)) * 10 ^ expVal.toNat
      let denom : Nat := 10 ^ (fracDs.length + (-expVal).toNat)
      some (.num (mkRat numer denom), l4)

mutual

/-- A JSON value (after skipping leading whitespace), returning the
remaining input, in the dispatch order of the `json` module scanner:
string, object, array, the literals, the strict number regular
expression, and finally the constants `NaN`, `Infinity` and
`-Infinity` accepted by the default `parse_constant`.  Fuel-indexed;
the top entry point `loads` supplies ample fuel, so fuel exhaustion
never occurs on inputs the Python scanner accepts. -/
def parseVal (fuel : Nat) (l : List Char) : Option (Json × List Char) :=
  match fuel with
  | 0 => none
  | fuel + 1 =>
    match l.dropWhile jsonWs with
    | [] => none
    | c :: rest =>
      if c = '"' then
        (parseStringBody fuel rest).map (fun p => (.str p.1, p.2))
      else if c = '\x7b' then
        match (rest.dropWhile jsonWs) with
        | '\x7d' :: r2 => some (.obj [], r2)
        | _ => (parseMembers fuel (rest.dropWhile jsonWs)).map
            (fun p => (.obj p.1, p.2))
      else if c = '[' then
        match (rest.dropWhile jsonWs) with
        | ']' :: r2 => some (.arr [], r2)
        | _ => (parseElems fuel (rest.dropWhile jsonWs)).map
            (fun p => (.arr p.1, p.2))
      else if c = 't' then
        if "rue".toList.isPrefixOf rest then some (.bool true, rest.drop 3) else none
      else if c = 'f' then
        if "alse".toList.isPrefixOf rest then some (.bool false, rest.drop 4) else none
      else if c = 'n' then
        if "ull".toList.isPrefixOf rest then some (.null, rest.drop 3) else none
      else
        match parseNumber (c :: rest) with
        | some r => some r
        | none =>
          if c = 'N' ∧ "aN".toList.isPrefixOf rest then
            some (.nan, rest.drop 2)
          else if c = 'I' ∧ "nfinity".toList.isPrefixOf rest then
            some (.infinity, rest.drop 7)
          else if c = '-' ∧ "Infinity".toList.isPrefixOf rest then
            some (.negInfinity, rest.drop 8)
          else none

/-- Members of a JSON object, positioned at the first key (not at `{`). -/
def parseMembers (fuel : Nat) (l : List Char) : Option (List (List Char × Json) × List Char) :=
  match fuel with
  | 0 => none
  | fuel + 1 =>
    match l with
    | '"' :: rest =>
      match parseStringBody fuel rest with
      | none => none
      | some (key, r2) =>
        match r2.dropWhile jsonWs with
        | ':' :: r3 =>
          match parseVal fuel r3 with
          | none => none
          | some (v, r4) =>
            match r4.dropWhile jsonWs with
            | ',' :: r5 =>
              (parseMembers fuel (r5.dropWhile jsonWs)).map
                (fun p => ((key, v) :: p.1, p.2))
            | '\x7d' :: r5 => some ([(key, v)], r5)
            | _ => none
        | _ => none
    | _ => none

/-- Elements of a JSON array, positioned at the first element (not at `[`). -/
def parseElems (fuel : Nat) (l : List Char) : Option (List Json × List Char) :=
  match fuel with
  | 0 => none
  | fuel + 1 =>
    match parseVal fuel l with
    | none => none
    | some (v, r) =>
      match r.dropWhile jsonWs with
      | ',' :: r2 => (parseElems fuel r2).map (fun p => (v :: p.1, p.2))
      | ']' :: r2 => some ([v], r2)
      | _ => none

end

/-- Python `json.loads`: parse one JSON document and require that only
whitespace remains (otherwise the scanner raises the Extra data error). -/
def loads (l : List Char) : Option Json :=
  match parseVal (3 * l.length + 8) l with
  | some (v, rest) => if rest.dropWhile jsonWs = [] then some v else none
  | none => none

/-! ## Python dictionary access -/

/-- Lookup in a parsed object.  The Python dict keeps the last binding
of a duplicated key, so the lookup prefers later pairs. -/
def jLookup (kvs : List (List Char × Json)) (k : List Char) : Option Json :=
  match kvs with
  | [] => none
  | (k', v) :: rest =>
    match jLookup rest k with
    | some r => some r
    | none => if k' = k then some v else none

/-- Exceptions that can arise inside the `try` block of the endpoint
(every one of them is caught at src/main.py lines 401 and 405). -/
inductive Exc where
  /-- raise Exception at src/main.py line 41: Gemini key not configured. -/
  | geminiKeyMissing
  /-- raise Exception at lines 68, 89, 125: eBay token not configured. -/
  | ebayTokenMissing
  /-- the call `model.generate_content` raised. -/
  | geminiTransport
  /-- `json.loads` raised on the cleaned response text. -/
  | jsonDecode
  /-- `PIL.Image.open` raised on the request bytes. -/
  | imageDecode
  /-- `response.raise_for_status()` raised `requests.exceptions.HTTPError`. -/
  | httpError (status : Nat)
  /-- Python KeyError: subscripting a dict at a missing key. -/
  | keyError (k : List Char)
  /-- Python TypeError: subscripting a non-dict value with a string key. -/
  | typeError
  /-- Python AttributeError: `.replace` or `.get` on a value lacking it. -/
  | attrError
deriving DecidableEq

/-- Python `d[k]` for a string key `k`: KeyError when the key is absent,
TypeError when the value is not a dict. -/
def jIndex (d : Json) (k : List Char) : Except Exc Json :=
  match d with
  | .obj kvs =>
    match jLookup kvs k with
    | some v => .ok v
    | none => .error (.keyError k)
  | _ => .error .typeError

/-- Python `d.get(k)`: `none` when the key is absent, AttributeError
when the value is not a dict. -/
def jGetOpt (d : Json) (k : List Char) : Except Exc (Option Json) :=
  match d with
  | .obj kvs => .ok (jLookup kvs k)
  | _ => .error .attrError

/-- Python truthiness of an optional string (`if not x`): `None` and the
empty string are falsy. -/
def pyFalsy (x : Option (List Char)) : Bool :=
  match x with
  | none => true
  | some s => s.isEmpty

/-! ## Remote calls and payloads -/

/-- The JSON body of `PUT /inventory_item/{sku}` built at src/main.py
lines 100 to 113. -/
structure InventoryPayload where
  title : Json
  description : Json
  brandAspect : Json
  conditionAspect : Json
  imageUrls : List (List Char)
  condition : List Char
  conditionDescription : List Char
  group : List Char

/-- The JSON body of `POST /offer` built at src/main.py lines 134
to 151. -/
structure OfferPayload where
  sku : List Char
  marketplaceId : List Char
  format : List Char
  quantity : Nat
  fulfillmentPolicyId : List Char
  paymentPolicyId : List Char
  returnPolicyId : List Char
  priceValue : Json
  priceCurrency : Json
  listingStatus : List Char

/-- One remote call made during a pipeline invocation, in the order the
calls are issued. -/
inductive Call where
  /-- the Gemini `generate_content` request. -/
  | gemini
  /-- POST to the sandbox file endpoint. -/
  | uploadPost
  /-- PUT to the sandbox inventory-item endpoint under the SKU, with
  its body. -/
  | inventoryPut (sku : List Char) (payload : InventoryPayload)
  /-- POST to the sandbox offer endpoint with its body. -/
  | offerPost (payload : OfferPayload)

/-- The constant POLICY_IDS dictionary of src/main.py lines 23 to 27. -/
def POLICY_IDS_fulfillment : List Char := "1234567890".toList

/-- Payment member of POLICY_IDS. -/
def POLICY_IDS_payment : List Char := "9876543210".toList

/-- Return member of POLICY_IDS. -/
def POLICY_IDS_return : List Char := "5432109876".toList

/-- Building the inventory-item body (src/main.py lines 100 to 113):
each subscript of `item_data` can raise, in the evaluation order of the
dict literal, and `.replace` requires the condition value to be a
string.  When the condition is the string `c`, the top-level
`condition` field is `c.replace('_', '')` and `conditionDescription`
is the f-string `AI-Generated Description: {c}`. -/
def buildInventoryPayload (d : Json) (imageId : List Char) :
    Except Exc InventoryPayload :=
  match jIndex d "title".toList with
  | .error e => .error e
  | .ok title =>
    match jIndex d "description".toList with
    | .error e => .error e
    | .ok description =>
      match jIndex d "brand".toList with
      | .error e => .error e
      | .ok brand =>
        match jIndex d "condition".toList with
        | .error e => .error e
        | .ok cond =>
          match cond with
          | .str condStr =>
            .ok {
              title := title
              description := description
              brandAspect := brand
              conditionAspect := cond
              imageUrls := [imageId]
              condition := pyReplace ['_'] [] condStr
              conditionDescription := "AI-Generated Description: ".toList ++ condStr
              group := "SINGLE".toList }
          | _ => .error .attrError

/-- Building the offer body (src/main.py lines 134 to 151): the price
value and currency use `item_data.get` with defaults `25.00` and
`"USD"`, and the listing status is the literal `"DRAFT"`. -/
def buildOfferPayload (sku : List Char) (d : Json) :
    Except Exc OfferPayload :=
  match jGetOpt d "suggested_price".toList with
  | .error e => .error e
  | .ok sp =>
    match jGetOpt d "currency".toList with
    | .error e => .error e
    | .ok cur =>
      .ok {
        sku := sku
        marketplaceId := "EBAY_US".toList
        format := "FIXED_PRICE".toList
        quantity := 1
        fulfillmentPolicyId := POLICY_IDS_fulfillment
        paymentPolicyId := POLICY_IDS_payment
        returnPolicyId := POLICY_IDS_return
        priceValue := sp.getD (.num (mkRat 25 1))
        priceCurrency := cur.getD (.str "USD".toList)
        listingStatus := "DRAFT".toList }

/-- The offer body `buildOfferPayload` produces for an object draft,
as one named record for reuse in statements and proofs. -/
def offerRecordOf (sku : List Char) (kvs : List (List Char × Json)) : OfferPayload :=
  { sku := sku
    marketplaceId := "EBAY_US".toList
    format := "FIXED_PRICE".toList
    quantity := 1
    fulfillmentPolicyId := POLICY_IDS_fulfillment
    paymentPolicyId := POLICY_IDS_payment
    returnPolicyId := POLICY_IDS_return
    priceValue := (jLookup kvs "suggested_price".toList).getD (.num (mkRat 25 1))
    priceCurrency := (jLookup kvs "currency".toList).getD (.str "USD".toList)
    listingStatus := "DRAFT".toList }

/-- The `requests` method `raise_for_status`: raises `HTTPError` exactly
for statuses in `[400, 600)`. -/
def raiseForStatus (s : Nat) : Except Exc Unit :=
  if 400 ≤ s ∧ s < 600 then .error (.httpError s) else .ok ()

/-! ## The four stage helpers of src/main.py

Each helper is a function of its Python arguments plus the part of the
remote world it observes, and returns its Python result (or the
exception it raises) together with the list of remote calls it
actually issued. -/

/-- The helper `analyze_image_with_gemini` (src/main.py lines 38 to 63):
check the key, call the model (`resp` is the transport outcome), strip
the code-fence markers, `json.loads` the rest. -/
def analyze_image_with_gemini (geminiKey : Option (List Char))
    (resp : Except Unit (List Char)) : Except Exc Json × List Call :=
  if pyFalsy geminiKey then (.error .geminiKeyMissing, [])
  else
    match resp with
    | .error _ => (.error .geminiTransport, [.gemini])
    | .ok text =>
      match loads (cleanText text) with
      | some v => (.ok v, [.gemini])
      | none => (.error .jsonDecode, [.gemini])

/-- The helper `upload_image_to_ebay` (src/main.py lines 65 to 84):
check the token, POST, `raise_for_status`, return the `fileId` field of
the response body (which may be absent, giving `None`). -/
def upload_image_to_ebay (token : Option (List Char)) (status : Nat)
    (fileId : Option (List Char)) : Except Exc (Option (List Char)) × List Call :=
  if pyFalsy token then (.error .ebayTokenMissing, [])
  else
    match raiseForStatus status with
    | .error e => (.error e, [.uploadPost])
    | .ok _ => (.ok fileId, [.uploadPost])

/-- The SKU generated at src/main.py line 91: the literal `SKU-`
followed by the first 8 characters of the random uuid string,
upper-cased; written as a function of that uuid string. -/
def skuOf (uuid : List Char) : List Char :=
  "SKU-".toList ++ (uuid.take 8).map Char.toUpper

/-- The helper `create_inventory_item` (src/main.py lines 86 to 120):
check the token, generate the SKU, build the body (which may raise
before any request is sent), PUT, `raise_for_status`, and return the
SKU exactly when the status is 204, else `None`. -/
def create_inventory_item (token : Option (List Char)) (d : Json)
    (imageId : List Char) (uuid : List Char) (status : Nat) :
    Except Exc (Option (List Char)) × List Call :=
  if pyFalsy token then (.error .ebayTokenMissing, [])
  else
    let sku := skuOf uuid
    match buildInventoryPayload d imageId with
    | .error e => (.error e, [])
    | .ok payload =>
      match raiseForStatus status with
      | .error e => (.error e, [.inventoryPut sku payload])
      | .ok _ =>
        if status = 204 then (.ok (some sku), [.inventoryPut sku payload])
        else (.ok none, [.inventoryPut sku payload])

/-- The helper `create_offer` (src/main.py lines 122 to 158): check the
token, build the body (which may raise before any request is sent),
POST, `raise_for_status`, and return the `offerId` field of the
response body exactly when the status is 201, else `None`. -/
def create_offer (token : Option (List Char)) (sku : List Char) (d : Json)
    (status : Nat) (offerId : Option (List Char)) :
    Except Exc (Option (List Char)) × List Call :=
  if pyFalsy token then (.error .ebayTokenMissing, [])
  else
    match buildOfferPayload sku d with
    | .error e => (.error e, [])
    | .ok payload =>
      match raiseForStatus status with
      | .error e => (.error e, [.offerPost payload])
      | .ok _ =>
        if status = 201 then (.ok offerId, [.offerPost payload])
        else (.ok none, [.offerPost payload])

/-! ## The orchestrator endpoint -/

/-- The remote world observed by one invocation of the endpoint: the
configured credentials, the uploaded file, and the behaviour of each
remote endpoint.  Response bodies are abstracted by the single field
the source reads from them (`fileId`, `offerId`), `none` standing for
an absent field. -/
structure Env where
  geminiKey : Option (List Char)
  ebayToken : Option (List Char)
  contentType : List Char
  imageDecodeOk : Bool
  geminiResp : Except Unit (List Char)
  uploadStatus : Nat
  uploadFileId : Option (List Char)
  uuid : List Char
  inventoryStatus : Nat
  offerStatus : Nat
  offerId : Option (List Char)

/-- The outcome of one invocation of the endpoint `upload_and_analyze`. -/
inductive Result where
  /-- the success body of src/main.py lines 392 to 399: title,
  suggested price and currency from the extracted draft, plus the SKU
  and offer id. -/
  | success (title suggestedPrice currency : Json) (sku offerId : List Char)
  /-- HTTPException 500 raised at line 360: API keys missing (raised
  before the `try` block, hence surfaced as is). -/
  | configError
  /-- HTTPException 400 raised at line 363: not an image upload. -/
  | notImage
  /-- the handler at line 401: `requests.exceptions.HTTPError` mapped
  to an HTTPException carrying the remote status. -/
  | httpFailure (status : Nat)
  /-- the handler at line 405: any other exception mapped to
  HTTPException 500, an internal error.  The HTTPExceptions raised
  inside the `try` block at lines 379, 384 and 389 are themselves
  caught by this handler, so they surface through it as well. -/
  | internalError (e : Exc)

/-- Exceptions raised inside the `try` block of the endpoint reach one
of the two handlers: `requests` HTTP errors keep their status, anything
else becomes an internal error. -/
def stageFail (e : Exc) : Result :=
  match e with
  | .httpError s => .httpFailure s
  | e => .internalError e

/-- The marker exceptions for the three HTTPExceptions raised inside
the `try` block (lines 379, 384, 389); each is caught by the generic
handler at line 405. -/
def uploadNoFileId : Exc := .keyError "fileId-falsy".toList

/-- Marker for the HTTPException at line 384 (no SKU returned). -/
def inventoryNoSku : Exc := .keyError "sku-falsy".toList

/-- Marker for the HTTPException at line 389 (no offer id returned). -/
def offerNoId : Exc := .keyError "offerId-falsy".toList

/-- The endpoint `upload_and_analyze` (src/main.py lines 354 to 407):
pre-flight credential check, content-type check, image decode, then the
four stages in order, each aborting the run on failure, and finally the
success body, which subscripts the extracted draft at `title`,
`suggested_price` and `currency`. -/
def upload_and_analyze (env : Env) : Result × List Call :=
  if pyFalsy env.geminiKey || pyFalsy env.ebayToken then (.configError, [])
  else if ¬ ("image/".toList.isPrefixOf env.contentType) then (.notImage, [])
  else if ¬ env.imageDecodeOk then (.internalError .imageDecode, [])
  else
    match analyze_image_with_gemini env.geminiKey env.geminiResp with
    | (.error e, c1) => (stageFail e, c1)
    | (.ok listingData, c1) =>
      match upload_image_to_ebay env.ebayToken env.uploadStatus env.uploadFileId with
      | (.error e, c2) => (stageFail e, c1 ++ c2)
      | (.ok fid, c2) =>
        if pyFalsy fid then (.internalError uploadNoFileId, c1 ++ c2)
        else
          match create_inventory_item env.ebayToken listingData (fid.getD [])
              env.uuid env.inventoryStatus with
          | (.error e, c3) => (stageFail e, c1 ++ c2 ++ c3)
          | (.ok skuOpt, c3) =>
            if pyFalsy skuOpt then (.internalError inventoryNoSku, c1 ++ c2 ++ c3)
            else
              match create_offer env.ebayToken (skuOpt.getD []) listingData
                  env.offerStatus env.offerId with
              | (.error e, c4) => (stageFail e, c1 ++ c2 ++ c3 ++ c4)
              | (.ok offOpt, c4) =>
                if pyFalsy offOpt then
                  (.internalError offerNoId, c1 ++ c2 ++ c3 ++ c4)
                else
                  let tr := c1 ++ c2 ++ c3 ++ c4
                  match jIndex listingData "title".toList with
                  | .error e => (.internalError e, tr)
                  | .ok t =>
                    match jIndex listingData "suggested_price".toList with
                    | .error e => (.internalError e, tr)
                    | .ok p =>
                      match jIndex listingData "currency".toList with
                      | .error e => (.internalError e, tr)
                      | .ok c =>
                        (.success t p c (skuOpt.getD []) (offOpt.getD []), tr)

/-! ## Concrete data for witnesses and counterexamples -/

/-- A model response carrying the fully populated draft of the spec
end-to-end scenario. -/
def draftFullText : List Char :=
  ("\x7b\"title\":\"Vintage Leather Jacket\",\"description\":\"Nice\"," ++
   "\"brand\":\"Unbranded\",\"condition\":\"USED_EXCELLENT\"," ++
   "\"category_keyword\":\"jacket\",\"suggested_price\":45.0,\"currency\":\"USD\"\x7d").toList

/-- The parsed form of `draftFullText`. -/
def draftFull : Json :=
  .obj [("title".toList, .str "Vintage Leather Jacket".toList),
        ("description".toList, .str "Nice".toList),
        ("brand".toList, .str "Unbranded".toList),
        ("condition".toList, .str "USED_EXCELLENT".toList),
        ("category_keyword".toList, .str "jacket".toList),
        ("suggested_price".toList, .num (mkRat 45 1)),
        ("currency".toList, .str "USD".toList)]

/-- A model response whose draft lacks `suggested_price`. -/
def draftNoPriceText : List Char :=
  ("\x7b\"title\":\"T\",\"description\":\"D\"," ++
   "\"brand\":\"B\",\"condition\":\"NEW_OTHER\",\"currency\":\"USD\"\x7d").toList

/-- The members of the parsed form of `draftNoPriceText`. -/
def draftNoPriceKvs : List (List Char × Json) :=
  [("title".toList, .str "T".toList),
   ("description".toList, .str "D".toList),
   ("brand".toList, .str "B".toList),
   ("condition".toList, .str "NEW_OTHER".toList),
   ("currency".toList, .str "USD".toList)]

/-- The parsed form of `draftNoPriceText`. -/
def draftNoPrice : Json := .obj draftNoPriceKvs

/-- The inventory body built from `draftNoPrice` with file id `f123`. -/
def invPayloadNoPrice : InventoryPayload :=
  { title := .str "T".toList
    description := .str "D".toList
    brandAspect := .str "B".toList
    conditionAspect := .str "NEW_OTHER".toList
    imageUrls := ["f123".toList]
    condition := "NEWOTHER".toList
    conditionDescription := "AI-Generated Description: NEW_OTHER".toList
    group := "SINGLE".toList }

/-- A model response that parses as valid JSON but has an over-long
title, a condition outside the enumeration, and missing fields. -/
def badDraftText : List Char :=
  "\x7b\"title\":\"".toList ++ List.replicate 81 'a' ++
    "\",\"condition\":\"MINT\"\x7d".toList

/-- The parsed form of `badDraftText`. -/
def badDraft : Json :=
  .obj [("title".toList, .str (List.replicate 81 'a')),
        ("condition".toList, .str "MINT".toList)]

/-- The inventory body built from `draftFull` with file id `f123`. -/
def invPayloadFull : InventoryPayload :=
  { title := .str "Vintage Leather Jacket".toList
    description := .str "Nice".toList
    brandAspect := .str "Unbranded".toList
    conditionAspect := .str "USED_EXCELLENT".toList
    imageUrls := ["f123".toList]
    condition := "USEDEXCELLENT".toList
    conditionDescription := "AI-Generated Description: USED_EXCELLENT".toList
    group := "SINGLE".toList }

/-- The offer body built from `draftFull` under SKU `SKU-AB12CD34`. -/
def offerPayloadFull : OfferPayload :=
  { sku := "SKU-AB12CD34".toList
    marketplaceId := "EBAY_US".toList
    format := "FIXED_PRICE".toList
    quantity := 1
    fulfillmentPolicyId := POLICY_IDS_fulfillment
    paymentPolicyId := POLICY_IDS_payment
    returnPolicyId := POLICY_IDS_return
    priceValue := .num (mkRat 45 1)
    priceCurrency := .str "USD".toList
    listingStatus := "DRAFT".toList }

/-- A model response with leading prose, which `json.loads` rejects. -/
def proseText : List Char :=
  "Here is your listing: \x7b\"title\":\"x\"\x7d".toList

/-- An environment in which every stage succeeds. -/
def envSuccess : Env :=
  { geminiKey := some "g".toList
    ebayToken := some "t".toList
    contentType := "image/jpeg".toList
    imageDecodeOk := true
    geminiResp := .ok draftFullText
    uploadStatus := 200
    uploadFileId := some "f123".toList
    uuid := "ab12cd34-0000".toList
    inventoryStatus := 204
    offerStatus := 201
    offerId := some "5001234567".toList }

/-! ## Helper lemmas -/

set_option maxRecDepth 100000

lemma stageFail_ne_success (e : Exc) (t p cu : Json) (sk oid : List Char) :
    stageFail e ≠ Result.success t p cu sk oid := by
  cases e <;> simp [stageFail]

lemma analyze_ok (k : Option (List Char)) (r : Except Unit (List Char))
    (v : Json) (c1 : List Call)
    (h : analyze_image_with_gemini k r = (.ok v, c1)) :
    pyFalsy k = false ∧ ∃ text, r = .ok text ∧
      loads (cleanText text) = some v ∧ c1 = [Call.gemini] := by
  unfold analyze_image_with_gemini at h
  split at h
  · simp at h
  · rename_i hk
    refine ⟨by simpa using hk, ?_⟩
    split at h
    · simp at h
    · rename_i text
      split at h
      · rename_i v' hv
        simp only [Prod.mk.injEq, Except.ok.injEq] at h
        exact ⟨text, rfl, h.1 ▸ hv, h.2.symm⟩
      · simp at h

lemma pyReplaceAux_underscore (fuel : Nat) (l : List Char) (h : l.length ≤ fuel) :
    pyReplaceAux ['_'] [] fuel l = l.filter (fun c => c != '_') := by
  induction fuel generalizing l with
  | zero =>
    have : l = [] := List.length_eq_zero.mp (Nat.le_zero.mp h)
    simp [this, pyReplaceAux]
  | succ fuel ih =>
    cases l with
    | nil => simp [pyReplaceAux]
    | cons c cs =>
      simp only [List.length_cons] at h
      simp only [pyReplaceAux]
      split
      · rename_i hcond
        have hcu : c = '_' := by
          have h2 := hcond.2
          simp [List.isPrefixOf] at h2
          exact h2.symm
        subst hcu
        simp only [List.length_singleton, List.drop_succ_cons, List.drop_zero]
        rw [ih cs (by omega)]
        simp [List.filter_cons]
      · rename_i hcond
        have hcne : ¬ (c = '_') := by
          intro hcc
          subst hcc
          exact hcond ⟨by simp, by simp [List.isPrefixOf]⟩
        rw [ih cs (by omega)]
        simp [List.filter_cons, hcne]

lemma pyReplace_underscore (l : List Char) :
    pyReplace ['_'] [] l = l.filter (fun c => c != '_') :=
  pyReplaceAux_underscore l.length l le_rfl

lemma analyze_calls (k : Option (List Char)) (r : Except Unit (List Char)) :
    ∀ c ∈ (analyze_image_with_gemini k r).2, c = Call.gemini := by
  intro c hc
  unfold analyze_image_with_gemini at hc
  split at hc
  · simp at hc
  · split at hc
    · simpa using hc
    · split at hc <;> simpa using hc

lemma upload_calls (tok : Option (List Char)) (s : Nat) (f : Option (List Char)) :
    ∀ c ∈ (upload_image_to_ebay tok s f).2, c = Call.uploadPost := by
  intro c hc
  unfold upload_image_to_ebay at hc
  split at hc
  · simp at hc
  · split at hc <;> simpa using hc

lemma inv_calls (tok : Option (List Char)) (d : Json) (img uuid : List Char) (s : Nat) :
    ∀ c ∈ (create_inventory_item tok d img uuid s).2,
      ∃ pay, c = Call.inventoryPut (skuOf uuid) pay ∧
        buildInventoryPayload d img = .ok pay := by
  intro c hc
  unfold create_inventory_item at hc
  split at hc
  · simp at hc
  · split at hc
    · simp at hc
    · rename_i pay hpay
      have hmem : c = Call.inventoryPut (skuOf uuid) pay := by
        split at hc
        · simpa using hc
        · split at hc <;> simpa using hc
      exact ⟨pay, hmem, hpay⟩

lemma offer_calls (tok : Option (List Char)) (sku : List Char) (d : Json)
    (s : Nat) (oid : Option (List Char)) :
    ∀ c ∈ (create_offer tok sku d s oid).2,
      ∃ pay, c = Call.offerPost pay ∧ buildOfferPayload sku d = .ok pay := by
  intro c hc
  unfold create_offer at hc
  split at hc
  · simp at hc
  · split at hc
    · simp at hc
    · rename_i pay hpay
      have hmem : c = Call.offerPost pay := by
        split at hc
        · simpa using hc
        · split at hc <;> simpa using hc
      exact ⟨pay, hmem, hpay⟩

lemma upload_ok (tok : Option (List Char)) (s : Nat) (f fid : Option (List Char))
    (calls : List Call)
    (h : upload_image_to_ebay tok s f = (.ok fid, calls)) :
    fid = f ∧ ¬ (400 ≤ s ∧ s < 600) := by
  unfold upload_image_to_ebay at h
  split at h
  · simp at h
  · unfold raiseForStatus at h
    split at h <;> simp_all

lemma inv_ok_nonfalsy (tok : Option (List Char)) (d : Json) (img uuid : List Char)
    (s : Nat) (skuOpt : Option (List Char)) (calls : List Call)
    (h : create_inventory_item tok d img uuid s = (.ok skuOpt, calls))
    (hf : pyFalsy skuOpt = false) :
    skuOpt = some (skuOf uuid) ∧ s = 204 ∧
      ∃ pay, buildInventoryPayload d img = .ok pay ∧
        calls = [Call.inventoryPut (skuOf uuid) pay] := by
  unfold create_inventory_item at h
  split at h
  · simp at h
  · split at h
    · simp at h
    · rename_i pay hpay
      split at h
      · simp at h
      · split at h
        · rename_i h204
          simp only [Prod.mk.injEq, Except.ok.injEq] at h
          exact ⟨h.1.symm, h204, pay, hpay, h.2.symm⟩
        · exfalso
          simp only [Prod.mk.injEq, Except.ok.injEq] at h
          rw [← h.1] at hf
          simp [pyFalsy] at hf

lemma inv_ok_some (tok : Option (List Char)) (d : Json) (img uuid sk : List Char)
    (s : Nat)
    (h : (create_inventory_item tok d img uuid s).1 = .ok (some sk)) :
    s = 204 ∧ sk = skuOf uuid := by
  unfold create_inventory_item at h
  split at h
  · simp at h
  · split at h
    · simp at h
    · split at h
      · simp at h
      · split at h <;> simp_all

lemma inv_204_of_ok_some (tok : Option (List Char)) (d : Json) (img uuid : List Char)
    (s : Nat) (h : s = 204) (htok : pyFalsy tok = false)
    (pay : InventoryPayload) (hpay : buildInventoryPayload d img = .ok pay) :
    create_inventory_item tok d img uuid s =
      (.ok (some (skuOf uuid)), [Call.inventoryPut (skuOf uuid) pay]) := by
  subst h
  unfold create_inventory_item raiseForStatus
  rw [if_neg (by simp [htok]), hpay]
  norm_num

lemma buildOffer_obj (sku : List Char) (kvs : List (List Char × Json)) :
    buildOfferPayload sku (.obj kvs) = .ok (offerRecordOf sku kvs) := rfl

lemma buildOffer_ok_shape (sku : List Char) (d : Json) (p : OfferPayload)
    (h : buildOfferPayload sku d = .ok p) :
    ∃ kvs, d = .obj kvs := by
  cases d <;> first
    | exact ⟨_, rfl⟩
    | (exfalso; unfold buildOfferPayload jGetOpt at h; simp at h)

lemma buildOffer_fields (sku : List Char) (d : Json) (p : OfferPayload)
    (h : buildOfferPayload sku d = .ok p) :
    p.sku = sku ∧ p.listingStatus = "DRAFT".toList := by
  obtain ⟨kvs, rfl⟩ := buildOffer_ok_shape sku d p h
  rw [buildOffer_obj] at h
  cases h
  exact ⟨rfl, rfl⟩

lemma calls12 (env : Env) (r1 : Except Exc Json) (c1 : List Call)
    (r2 : Except Exc (Option (List Char))) (c2 : List Call)
    (h1 : analyze_image_with_gemini env.geminiKey env.geminiResp = (r1, c1))
    (h2 : upload_image_to_ebay env.ebayToken env.uploadStatus env.uploadFileId = (r2, c2)) :
    ∀ c ∈ c1 ++ c2, c = Call.gemini ∨ c = Call.uploadPost := by
  intro c hc
  rcases List.mem_append.mp hc with hm | hm
  · have hx := analyze_calls env.geminiKey env.geminiResp
    rw [h1] at hx
    exact Or.inl (hx c hm)
  · have hx := upload_calls env.ebayToken env.uploadStatus env.uploadFileId
    rw [h2] at hx
    exact Or.inr (hx c hm)

lemma offer_region_finish (env : Env) (ld : Json) (fid skuOpt : Option (List Char))
    (c1 c2 c3 c4 : List Call) (resO : Except Exc (Option (List Char)))
    (heqA : analyze_image_with_gemini env.geminiKey env.geminiResp = (.ok ld, c1))
    (hequ : upload_image_to_ebay env.ebayToken env.uploadStatus env.uploadFileId
      = (.ok fid, c2))
    (heqI : create_inventory_item env.ebayToken ld (fid.getD []) env.uuid
      env.inventoryStatus = (.ok skuOpt, c3))
    (hsku : pyFalsy skuOpt = false)
    (heqO : create_offer env.ebayToken (skuOpt.getD []) ld env.offerStatus
      env.offerId = (resO, c4))
    (p : OfferPayload) (h : Call.offerPost p ∈ c1 ++ c2 ++ c3 ++ c4) :
    env.inventoryStatus = 204 ∧
      ∃ ld' pay, buildOfferPayload (skuOf env.uuid) ld' = .ok p ∧
        Call.inventoryPut (skuOf env.uuid) pay ∈ c1 ++ c2 ++ c3 ++ c4 := by
  obtain ⟨hsome, h204, pay, hpay, hc3⟩ := inv_ok_nonfalsy _ _ _ _ _ _ _ heqI hsku
  refine ⟨h204, ld, pay, ?_, ?_⟩
  · rcases List.mem_append.mp h with hm | hm
    · rcases List.mem_append.mp hm with hm' | hm'
      · rcases List.mem_append.mp hm' with hm'' | hm''
        · have hx := analyze_calls env.geminiKey env.geminiResp
          rw [heqA] at hx
          exact Call.noConfusion (hx _ hm'')
        · have hx := upload_calls env.ebayToken env.uploadStatus env.uploadFileId
          rw [hequ] at hx
          exact Call.noConfusion (hx _ hm'')
      · have hx := inv_calls env.ebayToken ld (fid.getD []) env.uuid env.inventoryStatus
        rw [heqI] at hx
        obtain ⟨pay', hcp, _⟩ := hx _ hm'
        exact Call.noConfusion hcp
    · have hx := offer_calls env.ebayToken (skuOpt.getD []) ld env.offerStatus env.offerId
      rw [heqO] at hx
      obtain ⟨pay', hcp, hbuild⟩ := hx _ hm
      injection hcp with hpp
      rw [hsome] at hbuild
      simpa [← hpp] using hbuild
  · rw [hc3]
    simp [List.mem_append]

lemma offer_call_inversion (env : Env) (res : Result) (tr : List Call)
    (heq : upload_and_analyze env = (res, tr)) (p : OfferPayload)
    (h : Call.offerPost p ∈ tr) :
    env.inventoryStatus = 204 ∧
      ∃ ld pay, buildOfferPayload (skuOf env.uuid) ld = .ok p ∧
        Call.inventoryPut (skuOf env.uuid) pay ∈ tr := by
  unfold upload_and_analyze at heq
  split at heq
  · injection heq with h1 h2
    subst h2
    exact absurd h (List.not_mem_nil _)
  · split at heq
    · injection heq with h1 h2
      subst h2
      exact absurd h (List.not_mem_nil _)
    · split at heq
      · injection heq with h1 h2
        subst h2
        exact absurd h (List.not_mem_nil _)
      · split at heq
        · rename_i e c1 heqA
          injection heq with h1 h2
          subst h2
          have hx := analyze_calls env.geminiKey env.geminiResp
          rw [heqA] at hx
          exact Call.noConfusion (hx _ h)
        · rename_i ld c1 heqA
          split at heq
          · rename_i e c2 hequ
            injection heq with h1 h2
            subst h2
            rcases List.mem_append.mp h with hm | hm
            · have hx := analyze_calls env.geminiKey env.geminiResp
              rw [heqA] at hx
              exact Call.noConfusion (hx _ hm)
            · have hx := upload_calls env.ebayToken env.uploadStatus env.uploadFileId
              rw [hequ] at hx
              exact Call.noConfusion (hx _ hm)
          · rename_i fid c2 hequ
            split at heq
            · injection heq with h1 h2
              subst h2
              rcases List.mem_append.mp h with hm | hm
              · have hx := analyze_calls env.geminiKey env.geminiResp
                rw [heqA] at hx
                exact Call.noConfusion (hx _ hm)
              · have hx := upload_calls env.ebayToken env.uploadStatus env.uploadFileId
                rw [hequ] at hx
                exact Call.noConfusion (hx _ hm)
            · rename_i hfid
              split at heq
              · rename_i e c3 heqI
                injection heq with h1 h2
                subst h2
                rcases List.mem_append.mp h with hm | hm
                · rcases List.mem_append.mp hm with hm' | hm'
                  · have hx := analyze_calls env.geminiKey env.geminiResp
                    rw [heqA] at hx
                    exact Call.noConfusion (hx _ hm')
                  · have hx := upload_calls env.ebayToken env.uploadStatus env.uploadFileId
                    rw [hequ] at hx
                    exact Call.noConfusion (hx _ hm')
                · have hx := inv_calls env.ebayToken ld (fid.getD []) env.uuid
                    env.inventoryStatus
                  rw [heqI] at hx
                  obtain ⟨pay', hcp, _⟩ := hx _ hm
                  exact Call.noConfusion hcp
              · rename_i skuOpt c3 heqI
                split at heq
                · injection heq with h1 h2
                  subst h2
                  rcases List.mem_append.mp h with hm | hm
                  · rcases List.mem_append.mp hm with hm' | hm'
                    · have hx := analyze_calls env.geminiKey env.geminiResp
                      rw [heqA] at hx
                      exact Call.noConfusion (hx _ hm')
                    · have hx := upload_calls env.ebayToken env.uploadStatus
                        env.uploadFileId
                      rw [hequ] at hx
                      exact Call.noConfusion (hx _ hm')
                  · have hx := inv_calls env.ebayToken ld (fid.getD []) env.uuid
                      env.inventoryStatus
                    rw [heqI] at hx
                    obtain ⟨pay', hcp, _⟩ := hx _ hm
                    exact Call.noConfusion hcp
                · rename_i hsku
                  have hsku' : pyFalsy skuOpt = false := by simpa using hsku
                  split at heq
                  · rename_i e c4 heqO
                    injection heq with h1 h2
                    subst h2
                    exact offer_region_finish env ld fid skuOpt c1 c2 c3 c4 _
                      heqA hequ heqI hsku' heqO p h
                  · rename_i offOpt c4 heqO
                    split at heq
                    · injection heq with h1 h2
                      subst h2
                      exact offer_region_finish env ld fid skuOpt c1 c2 c3 c4 _
                        heqA hequ heqI hsku' heqO p h
                    · split at heq <;> try (split at heq) <;> try (split at heq)
                      all_goals
                        injection heq with h1 h2
                      all_goals
                        subst h2
                      all_goals
                        exact offer_region_finish env ld fid skuOpt c1 c2 c3 c4 _
                          heqA hequ heqI hsku' heqO p h

/-! ## Claim theorems -/

/-- C7: whenever the marketplace bearer credential or the vision-model
credential is absent (or empty), the invocation fails with the
configuration error raised before the `try` block, and the list of
remote calls performed is empty. -/
theorem missing_credentials_preflight_failure (env : Env)
    (h : pyFalsy env.geminiKey = true ∨ pyFalsy env.ebayToken = true) :
    upload_and_analyze env = (.configError, []) := by
  unfold upload_and_analyze
  rcases h with h | h <;> simp [h]

/-- Witness for C7: with no eBay token configured the invocation
returns the configuration error and performs zero remote calls. -/
theorem missing_credentials_preflight_failure_witness :
    upload_and_analyze { envSuccess with ebayToken := none } = (.configError, []) :=
  missing_credentials_preflight_failure _ (Or.inr rfl)

/-- C1: if the media-upload stage fails (the upload call raises on a
4xx or 5xx status, or the response carries no usable file reference),
the inventory-item call and the offer call are never performed and the
invocation does not succeed. -/
theorem upload_failure_skips_item_and_offer (env : Env)
    (h : (400 ≤ env.uploadStatus ∧ env.uploadStatus < 600) ∨
      pyFalsy env.uploadFileId = true) :
    (∀ c ∈ (upload_and_analyze env).2, c = Call.gemini ∨ c = Call.uploadPost) ∧
    (∀ t p cu sk oid, (upload_and_analyze env).1 ≠ Result.success t p cu sk oid) := by
  unfold upload_and_analyze
  split
  · exact ⟨by simp, by simp⟩
  · split
    · exact ⟨by simp, by simp⟩
    · split
      · exact ⟨by simp, by simp⟩
      · split
        · rename_i e c1 heq
          refine ⟨?_, fun t p cu sk oid => stageFail_ne_success e t p cu sk oid⟩
          intro c hc
          have hx := analyze_calls env.geminiKey env.geminiResp
          rw [heq] at hx
          exact Or.inl (hx c hc)
        · rename_i ld c1 heq
          split
          · rename_i e c2 hequ
            exact ⟨calls12 env _ c1 _ c2 heq hequ,
              fun t p cu sk oid => stageFail_ne_success e t p cu sk oid⟩
          · rename_i fid c2 hequ
            split
            · exact ⟨calls12 env _ c1 _ c2 heq hequ, by simp⟩
            · rename_i hfid
              exfalso
              obtain ⟨hfeq, hst⟩ := upload_ok _ _ _ _ _ hequ
              rcases h with hs | hf
              · exact hst hs
              · exact hfid (hfeq ▸ hf)

/-- Witness for C1: with the upload endpoint answering 403, the calls
performed are only the extraction and upload calls and the invocation
fails. -/
theorem upload_failure_skips_item_and_offer_witness :
    (∀ c ∈ (upload_and_analyze { envSuccess with uploadStatus := 403 }).2,
        c = Call.gemini ∨ c = Call.uploadPost) ∧
    (∀ t p cu sk oid,
      (upload_and_analyze { envSuccess with uploadStatus := 403 }).1 ≠
        Result.success t p cu sk oid) :=
  upload_failure_skips_item_and_offer _ (Or.inl (by decide))

/-- C2: whenever the offer endpoint is called, the inventory endpoint
answered 204 for this run and the trace contains an inventory write
under the very SKU carried by the offer body. -/
theorem offer_sku_matches_successful_inventory (env : Env) (p : OfferPayload)
    (h : Call.offerPost p ∈ (upload_and_analyze env).2) :
    env.inventoryStatus = 204 ∧
      ∃ pay, Call.inventoryPut p.sku pay ∈ (upload_and_analyze env).2 := by
  obtain ⟨h204, ld, pay, hbuild, hmem⟩ := offer_call_inversion env _ _ rfl p h
  obtain ⟨hsku, _⟩ := buildOffer_fields _ _ _ hbuild
  exact ⟨h204, pay, by rw [hsku]; exact hmem⟩

/-- Witness for C2 on the all-success environment. -/
theorem offer_sku_matches_successful_inventory_witness :
    envSuccess.inventoryStatus = 204 ∧
      ∃ pay, Call.inventoryPut offerPayloadFull.sku pay ∈
        (upload_and_analyze envSuccess).2 :=
  offer_sku_matches_successful_inventory envSuccess offerPayloadFull (by
    have htr : (upload_and_analyze envSuccess).2 =
        [Call.gemini, Call.uploadPost,
         Call.inventoryPut "SKU-AB12CD34".toList invPayloadFull,
         Call.offerPost offerPayloadFull] := rfl
    rw [htr]
    simp)

/-- C8: every offer body ever posted carries the non-published listing
status DRAFT. -/
theorem offer_always_draft_status (env : Env) (p : OfferPayload)
    (h : Call.offerPost p ∈ (upload_and_analyze env).2) :
    p.listingStatus = "DRAFT".toList := by
  obtain ⟨_, ld, pay, hbuild, _⟩ := offer_call_inversion env _ _ rfl p h
  exact (buildOffer_fields _ _ _ hbuild).2

/-- Witness for C8 on the all-success environment. -/
theorem offer_always_draft_status_witness :
    offerPayloadFull.listingStatus = "DRAFT".toList :=
  offer_always_draft_status envSuccess offerPayloadFull (by
    have htr : (upload_and_analyze envSuccess).2 =
        [Call.gemini, Call.uploadPost,
         Call.inventoryPut "SKU-AB12CD34".toList invPayloadFull,
         Call.offerPost offerPayloadFull] := rfl
    rw [htr]
    simp)

/-- C6: with the token configured and a buildable body, the inventory
helper returns a SKU exactly when the endpoint answers 204; and when
the endpoint answers anything else the run never reaches the offer
endpoint. -/
theorem inventory_success_iff_204 :
    (∀ tok d img uuid s pay, pyFalsy tok = false →
      buildInventoryPayload d img = .ok pay →
      ∀ sk, ((create_inventory_item tok d img uuid s).1 = .ok (some sk) ↔
        (s = 204 ∧ sk = skuOf uuid))) ∧
    (∀ env, env.inventoryStatus ≠ 204 →
      ∀ p, Call.offerPost p ∉ (upload_and_analyze env).2) := by
  constructor
  · intro tok d img uuid s pay htok hpay sk
    constructor
    · intro h
      exact inv_ok_some tok d img uuid sk s h
    · rintro ⟨rfl, rfl⟩
      rw [inv_204_of_ok_some tok d img uuid 204 rfl htok pay hpay]
  · intro env hne p hmem
    obtain ⟨h204, _⟩ := offer_call_inversion env _ _ rfl p hmem
    exact hne h204

/-- Witness for C6: concrete 204 success, and with the endpoint
answering HTTP 200 the offer call does not occur. -/
theorem inventory_success_iff_204_witness :
    ((create_inventory_item (some "t".toList) draftFull "f123".toList
        "ab12cd34-0000".toList 204).1 = .ok (some "SKU-AB12CD34".toList)) ∧
    (Call.offerPost offerPayloadFull ∉
      (upload_and_analyze { envSuccess with inventoryStatus := 200 }).2) :=
  ⟨(inventory_success_iff_204.1 (some "t".toList) draftFull "f123".toList
      "ab12cd34-0000".toList 204 invPayloadFull rfl rfl
      "SKU-AB12CD34".toList).mpr ⟨rfl, by decide⟩,
   inventory_success_iff_204.2 { envSuccess with inventoryStatus := 200 }
      (by decide) offerPayloadFull⟩

/-- C5: the top-level condition field of the inventory body is the
draft condition with every underscore removed. -/
theorem condition_underscores_removed (d : Json) (img : List Char)
    (c : List Char) (p : InventoryPayload)
    (hc : jIndex d "condition".toList = .ok (.str c))
    (hp : buildInventoryPayload d img = .ok p) :
    p.condition = c.filter (fun ch => ch != '_') := by
  unfold buildInventoryPayload at hp
  split at hp
  · exact absurd hp (by simp)
  · split at hp
    · exact absurd hp (by simp)
    · split at hp
      · exact absurd hp (by simp)
      · split at hp
        · exact absurd hp (by simp)
        · rename_i cond heqc
          rw [hc] at heqc
          injection heqc with hcv
          subst hcv
          simp only [Except.ok.injEq] at hp
          rw [← hp]
          exact pyReplace_underscore c

/-- Witness for C5: `USED_EXCELLENT` is transmitted as
`USEDEXCELLENT`. -/
theorem condition_underscores_removed_witness :
    invPayloadFull.condition =
      "USED_EXCELLENT".toList.filter (fun ch => ch != '_') ∧
    "USED_EXCELLENT".toList.filter (fun ch => ch != '_') =
      "USEDEXCELLENT".toList :=
  ⟨condition_underscores_removed draftFull "f123".toList
      "USED_EXCELLENT".toList invPayloadFull rfl rfl,
    by decide⟩

/-- C9: every offer body built is a fixed-price quantity-one offer
for the given SKU with the three configured policy identifiers and
DRAFT status, its price the draft suggested price (default 25.00) and
its currency the draft currency (default USD). -/
theorem offer_payload_fields (sku : List Char) (d : Json) (p : OfferPayload)
    (h : buildOfferPayload sku d = .ok p) :
    p.sku = sku ∧ p.marketplaceId = "EBAY_US".toList ∧
    p.format = "FIXED_PRICE".toList ∧ p.quantity = 1 ∧
    p.fulfillmentPolicyId = POLICY_IDS_fulfillment ∧
    p.paymentPolicyId = POLICY_IDS_payment ∧
    p.returnPolicyId = POLICY_IDS_return ∧
    p.listingStatus = "DRAFT".toList ∧
    ∀ kvs, d = .obj kvs →
      ((∀ v, jLookup kvs "suggested_price".toList = some v → p.priceValue = v) ∧
       (jLookup kvs "suggested_price".toList = none →
         p.priceValue = .num (mkRat 25 1)) ∧
       (∀ v, jLookup kvs "currency".toList = some v → p.priceCurrency = v) ∧
       (jLookup kvs "currency".toList = none →
         p.priceCurrency = .str "USD".toList)) := by
  obtain ⟨kvs, rfl⟩ := buildOffer_ok_shape sku d p h
  rw [buildOffer_obj] at h
  injection h with h'
  subst h'
  refine ⟨rfl, rfl, rfl, rfl, rfl, rfl, rfl, rfl, ?_⟩
  rintro kvs' heq
  injection heq with hk
  subst hk
  refine ⟨?_, ?_, ?_, ?_⟩
  · intro v hv
    show (jLookup kvs "suggested_price".toList).getD (.num (mkRat 25 1)) = v
    rw [hv]
    rfl
  · intro hv
    show (jLookup kvs "suggested_price".toList).getD (.num (mkRat 25 1)) =
      .num (mkRat 25 1)
    rw [hv]
    rfl
  · intro v hv
    show (jLookup kvs "currency".toList).getD (.str "USD".toList) = v
    rw [hv]
    rfl
  · intro hv
    show (jLookup kvs "currency".toList).getD (.str "USD".toList) =
      .str "USD".toList
    rw [hv]
    rfl

/-- Witness for C9 at the fully populated draft. -/
theorem offer_payload_fields_witness :
    offerPayloadFull.sku = "SKU-AB12CD34".toList ∧
    offerPayloadFull.marketplaceId = "EBAY_US".toList ∧
    offerPayloadFull.format = "FIXED_PRICE".toList ∧
    offerPayloadFull.quantity = 1 ∧
    offerPayloadFull.fulfillmentPolicyId = POLICY_IDS_fulfillment ∧
    offerPayloadFull.paymentPolicyId = POLICY_IDS_payment ∧
    offerPayloadFull.returnPolicyId = POLICY_IDS_return ∧
    offerPayloadFull.listingStatus = "DRAFT".toList ∧
    ∀ kvs, draftFull = .obj kvs →
      ((∀ v, jLookup kvs "suggested_price".toList = some v →
          offerPayloadFull.priceValue = v) ∧
       (jLookup kvs "suggested_price".toList = none →
         offerPayloadFull.priceValue = .num (mkRat 25 1)) ∧
       (∀ v, jLookup kvs "currency".toList = some v →
          offerPayloadFull.priceCurrency = v) ∧
       (jLookup kvs "currency".toList = none →
         offerPayloadFull.priceCurrency = .str "USD".toList)) :=
  offer_payload_fields "SKU-AB12CD34".toList draftFull offerPayloadFull rfl

/-- Counterexample to C3 as stated: the extraction helper performs no
validation at all.  On a model response whose JSON carries an
81-character title, a condition outside the enumeration and no other
field, it returns that record unchanged instead of failing. -/
theorem extract_unvalidated_counterexample :
    (analyze_image_with_gemini (some "g".toList) (.ok badDraftText)).1 =
      .ok badDraft ∧
    jIndex badDraft "title".toList = .ok (.str (List.replicate 81 'a')) ∧
    (List.replicate 81 'a').length = 81 ∧
    jIndex badDraft "condition".toList = .ok (.str "MINT".toList) ∧
    ("MINT".toList ≠ "NEW_OTHER".toList ∧
     "MINT".toList ≠ "USED_EXCELLENT".toList ∧
     "MINT".toList ≠ "USED_GOOD".toList) ∧
    jIndex badDraft "description".toList =
      .error (.keyError "description".toList) :=
  ⟨rfl, rfl, by simp, rfl, by decide, rfl⟩

/-- C3 (amended): with the credential configured, the extraction
operation either fails with an extraction error or returns exactly the
JSON value parsed from the fence-stripped response text; it does not
validate the title length, the condition enumeration, or the presence
of any field. -/
theorem extract_returns_parsed_json (k : List Char) (hk : k ≠ [])
    (r : Except Unit (List Char)) :
    (∃ e, (analyze_image_with_gemini (some k) r).1 = .error e) ∨
    (∃ text v, r = .ok text ∧ loads (cleanText text) = some v ∧
      (analyze_image_with_gemini (some k) r).1 = .ok v) := by
  have hpf : pyFalsy (some k) = false := by
    simpa [pyFalsy] using hk
  unfold analyze_image_with_gemini
  rw [hpf]
  cases r with
  | error e => exact Or.inl ⟨.geminiTransport, rfl⟩
  | ok text =>
    cases hl : loads (cleanText text) with
    | none => exact Or.inl ⟨.jsonDecode, by simp [hl]⟩
    | some v => exact Or.inr ⟨text, v, rfl, hl, by simp [hl]⟩

/-- Witness for the amended C3 at the fully populated draft response. -/
theorem extract_returns_parsed_json_witness :
    (∃ e, (analyze_image_with_gemini (some "g".toList) (.ok draftFullText)).1 =
      .error e) ∨
    (∃ text v, (Except.ok draftFullText : Except Unit (List Char)) = .ok text ∧
      loads (cleanText text) = some v ∧
      (analyze_image_with_gemini (some "g".toList) (.ok draftFullText)).1 =
        .ok v) :=
  extract_returns_parsed_json "g".toList (by decide) (.ok draftFullText)

/-- Counterexample to C4 as stated: the extraction client accepts a
response that is a single JSON document without being a JSON object —
the text `[]` parses and is returned as an array. -/
theorem extract_accepts_nonobject_counterexample :
    (analyze_image_with_gemini (some "g".toList) (.ok "[]".toList)).1 =
      .ok (.arr []) ∧
    (∀ kvs, Json.arr ([] : List Json) ≠ .obj kvs) :=
  ⟨rfl, fun _ h => Json.noConfusion h⟩

/-- C4 (amended): the extraction client accepts the response text
exactly when, after removing the code-fence-marker occurrences and
stripping surrounding whitespace, it is one document the Python
`json.loads` accepts — a JSON value of any kind, not necessarily an
object, including the non-finite constants `NaN`, `Infinity` and
`-Infinity` admitted by its default `parse_constant`; and whenever
that parse fails the invocation fails with no upload, inventory or
offer call attempted. -/
theorem extract_single_document_and_no_upload_on_parse_failure :
    (∀ (k text : List Char), k ≠ [] →
      ((∃ v, (analyze_image_with_gemini (some k) (.ok text)).1 = .ok v) ↔
        (loads (cleanText text)).isSome = true)) ∧
    (∀ env text, env.geminiResp = .ok text → loads (cleanText text) = none →
      (∀ t p cu sk oid,
        (upload_and_analyze env).1 ≠ Result.success t p cu sk oid) ∧
      (∀ c ∈ (upload_and_analyze env).2, c = Call.gemini)) := by
  constructor
  · intro k text hk
    have hpf : pyFalsy (some k) = false := by
      simpa [pyFalsy] using hk
    unfold analyze_image_with_gemini
    rw [hpf]
    cases hl : loads (cleanText text) with
    | none => simp [hl]
    | some v => simp [hl]
  · intro env text hresp hnone
    unfold upload_and_analyze
    split
    · exact ⟨by simp, by simp⟩
    · split
      · exact ⟨by simp, by simp⟩
      · split
        · exact ⟨by simp, by simp⟩
        · split
          · rename_i e c1 heqA
            refine ⟨fun t p cu sk oid => stageFail_ne_success e t p cu sk oid, ?_⟩
            intro c hc
            have hx := analyze_calls env.geminiKey env.geminiResp
            rw [heqA] at hx
            exact hx c hc
          · rename_i ld c1 heqA
            exfalso
            obtain ⟨_, text', hvt, hvl, _⟩ := analyze_ok _ _ _ _ heqA
            rw [hresp] at hvt
            injection hvt with hvt'
            rw [← hvt'] at hvl
            rw [hnone] at hvl
            exact Option.noConfusion hvl

/-- Witness for the amended C4: acceptance of the well-formed draft and
rejection of a prose-preceded response, which performs no eBay call. -/
theorem extract_single_document_and_no_upload_witness :
    ((∃ v, (analyze_image_with_gemini (some "g".toList)
        (.ok draftFullText)).1 = .ok v) ↔
      (loads (cleanText draftFullText)).isSome = true) ∧
    ((∀ t p cu sk oid,
      (upload_and_analyze { envSuccess with geminiResp := .ok proseText }).1 ≠
        Result.success t p cu sk oid) ∧
     (∀ c ∈ (upload_and_analyze
        { envSuccess with geminiResp := .ok proseText }).2, c = Call.gemini)) :=
  ⟨extract_single_document_and_no_upload_on_parse_failure.1 "g".toList
      draftFullText (by decide),
   extract_single_document_and_no_upload_on_parse_failure.2
      { envSuccess with geminiResp := .ok proseText } proseText rfl rfl⟩

/-- C10: when the extracted draft lacks the `suggested_price` or
`currency` key but the run otherwise succeeds, the offer is still
created remotely with the fallback values, yet the invocation then
fails with an internal error (a KeyError while building the success
body); and a reported success requires both keys present in the
extracted draft. -/
theorem missing_price_keys_internal_error_after_offer :
    (∀ env text kvs pay,
      pyFalsy env.geminiKey = false → pyFalsy env.ebayToken = false →
      "image/".toList.isPrefixOf env.contentType = true →
      env.imageDecodeOk = true →
      env.geminiResp = .ok text →
      loads (cleanText text) = some (.obj kvs) →
      ¬ (400 ≤ env.uploadStatus ∧ env.uploadStatus < 600) →
      pyFalsy env.uploadFileId = false →
      buildInventoryPayload (.obj kvs) (env.uploadFileId.getD []) = .ok pay →
      env.inventoryStatus = 204 →
      env.offerStatus = 201 →
      pyFalsy env.offerId = false →
      jLookup kvs "title".toList ≠ none →
      (jLookup kvs "suggested_price".toList = none ∨
        jLookup kvs "currency".toList = none) →
      (∃ k, (upload_and_analyze env).1 = .internalError (.keyError k)) ∧
      (∃ p, Call.offerPost p ∈ (upload_and_analyze env).2 ∧
        (jLookup kvs "suggested_price".toList = none →
          p.priceValue = .num (mkRat 25 1)) ∧
        (jLookup kvs "currency".toList = none →
          p.priceCurrency = .str "USD".toList))) ∧
    (∀ env t p cu sk oid tr,
      upload_and_analyze env = (.success t p cu sk oid, tr) →
      ∃ text ld, env.geminiResp = .ok text ∧ loads (cleanText text) = some ld ∧
        (∃ v, jIndex ld "suggested_price".toList = .ok v) ∧
        (∃ v, jIndex ld "currency".toList = .ok v)) := by
  constructor
  · intro env text kvs pay hk ht hct hdec hresp hloads hup hfid hpay hinv hoff
      hoid htitle hmiss
    have hana : analyze_image_with_gemini env.geminiKey env.geminiResp =
        (.ok (.obj kvs), [Call.gemini]) := by
      unfold analyze_image_with_gemini
      simp [hk, hresp, hloads]
    have hupl : upload_image_to_ebay env.ebayToken env.uploadStatus
        env.uploadFileId = (.ok env.uploadFileId, [Call.uploadPost]) := by
      unfold upload_image_to_ebay raiseForStatus
      simp [ht, hup]
    have hinvi := inv_204_of_ok_some env.ebayToken (.obj kvs)
      (env.uploadFileId.getD []) env.uuid env.inventoryStatus hinv ht pay hpay
    have hskuo : pyFalsy (some (skuOf env.uuid)) = false := by
      have hsk : skuOf env.uuid =
          'S' :: 'K' :: 'U' :: '-' :: (env.uuid.take 8).map Char.toUpper := rfl
      simp [pyFalsy, hsk]
    have hoffi : create_offer env.ebayToken (skuOf env.uuid) (.obj kvs)
        env.offerStatus env.offerId =
        (.ok env.offerId, [Call.offerPost (offerRecordOf (skuOf env.uuid) kvs)]) := by
      unfold create_offer raiseForStatus
      rw [buildOffer_obj]
      simp [ht, hoff]
    have hct2 : ['i', 'm', 'a', 'g', 'e', '/'] <+: env.contentType :=
      List.isPrefixOf_iff_prefix.mp hct
    rcases htv : jLookup kvs "title".toList with _ | tv
    · exact absurd htv htitle
    · have htv2 : jLookup kvs ['t', 'i', 't', 'l', 'e'] = some tv := htv
      rcases hsug : jLookup kvs "suggested_price".toList with _ | sv
      · have hsug2 : jLookup kvs
            ['s', 'u', 'g', 'g', 'e', 's', 't', 'e', 'd', '_',
             'p', 'r', 'i', 'c', 'e'] = none := hsug
        have hrun : upload_and_analyze env =
            (.internalError (.keyError "suggested_price".toList),
             [Call.gemini, Call.uploadPost,
              Call.inventoryPut (skuOf env.uuid) pay,
              Call.offerPost (offerRecordOf (skuOf env.uuid) kvs)]) := by
          unfold upload_and_analyze
          simp [hk, ht, hct2, hdec, hana, hupl, hinvi, hoffi, hskuo, hfid,
            hoid, jIndex, htv2, hsug2]
        refine ⟨⟨"suggested_price".toList, by rw [hrun]⟩, ?_⟩
        refine ⟨offerRecordOf (skuOf env.uuid) kvs, by rw [hrun]; simp, ?_, ?_⟩
        · intro _
          show (jLookup kvs "suggested_price".toList).getD
            (.num (mkRat 25 1)) = .num (mkRat 25 1)
          rw [hsug]
          rfl
        · intro hcu
          show (jLookup kvs "currency".toList).getD
            (.str "USD".toList) = .str "USD".toList
          rw [hcu]
          rfl
      · have hcur : jLookup kvs "currency".toList = none := by
          rcases hmiss with h | h
          · rw [h] at hsug
            exact Option.noConfusion hsug
          · exact h
        have hsug2 : jLookup kvs
            ['s', 'u', 'g', 'g', 'e', 's', 't', 'e', 'd', '_',
             'p', 'r', 'i', 'c', 'e'] = some sv := hsug
        have hcur2 : jLookup kvs
            ['c', 'u', 'r', 'r', 'e', 'n', 'c', 'y'] = none := hcur
        have hrun : upload_and_analyze env =
            (.internalError (.keyError "currency".toList),
             [Call.gemini, Call.uploadPost,
              Call.inventoryPut (skuOf env.uuid) pay,
              Call.offerPost (offerRecordOf (skuOf env.uuid) kvs)]) := by
          unfold upload_and_analyze
          simp [hk, ht, hct2, hdec, hana, hupl, hinvi, hoffi, hskuo, hfid,
            hoid, jIndex, htv2, hsug2, hcur2]
        refine ⟨⟨"currency".toList, by rw [hrun]⟩, ?_⟩
        refine ⟨offerRecordOf (skuOf env.uuid) kvs, by rw [hrun]; simp, ?_, ?_⟩
        · intro hsv
          exact Option.noConfusion hsv
        · intro _
          show (jLookup kvs "currency".toList).getD
            (.str "USD".toList) = .str "USD".toList
          rw [hcur]
          rfl
  · intro env t p cu sk oid tr heq
    unfold upload_and_analyze at heq
    split at heq
    · injection heq with h1 h2
      exact Result.noConfusion h1
    · split at heq
      · injection heq with h1 h2
        exact Result.noConfusion h1
      · split at heq
        · injection heq with h1 h2
          exact Result.noConfusion h1
        · split at heq
          · rename_i e c1 heqA
            injection heq with h1 h2
            exact absurd h1 (stageFail_ne_success e t p cu sk oid)
          · rename_i ld c1 heqA
            obtain ⟨_, text, hvt, hvl, _⟩ := analyze_ok _ _ _ _ heqA
            split at heq
            · rename_i e c2 hequ
              injection heq with h1 h2
              exact absurd h1 (stageFail_ne_success e t p cu sk oid)
            · rename_i fid c2 hequ
              split at heq
              · injection heq with h1 h2
                exact Result.noConfusion h1
              · split at heq
                · rename_i e c3 heqI
                  injection heq with h1 h2
                  exact absurd h1 (stageFail_ne_success e t p cu sk oid)
                · rename_i skuOpt c3 heqI
                  split at heq
                  · injection heq with h1 h2
                    exact Result.noConfusion h1
                  · split at heq
                    · rename_i e c4 heqO
                      injection heq with h1 h2
                      exact absurd h1 (stageFail_ne_success e t p cu sk oid)
                    · rename_i offOpt c4 heqO
                      split at heq
                      · injection heq with h1 h2
                        exact Result.noConfusion h1
                      · split at heq
                        · injection heq with h1 h2
                          exact Result.noConfusion h1
                        · rename_i t0 hti
                          split at heq
                          · injection heq with h1 h2
                            exact Result.noConfusion h1
                          · rename_i p0 hsug
                            split at heq
                            · injection heq with h1 h2
                              exact Result.noConfusion h1
                            · rename_i c0 hcur
                              exact ⟨text, ld, hvt, hvl, ⟨p0, hsug⟩, ⟨c0, hcur⟩⟩

/-- Witness for C10: a draft without `suggested_price` yields an
internal error though the offer call happened with the 25.00/USD
fallbacks, while the all-success run certifies both keys present. -/
theorem missing_price_keys_internal_error_after_offer_witness :
    ((∃ k, (upload_and_analyze
        { envSuccess with geminiResp := .ok draftNoPriceText }).1 =
          .internalError (.keyError k)) ∧
     (∃ p, Call.offerPost p ∈ (upload_and_analyze
        { envSuccess with geminiResp := .ok draftNoPriceText }).2 ∧
        (jLookup draftNoPriceKvs "suggested_price".toList = none →
          p.priceValue = .num (mkRat 25 1)) ∧
        (jLookup draftNoPriceKvs "currency".toList = none →
          p.priceCurrency = .str "USD".toList))) ∧
    (∃ text ld, envSuccess.geminiResp = .ok text ∧
      loads (cleanText text) = some ld ∧
      (∃ v, jIndex ld "suggested_price".toList = .ok v) ∧
      (∃ v, jIndex ld "currency".toList = .ok v)) :=
  ⟨missing_price_keys_internal_error_after_offer.1
      { envSuccess with geminiResp := .ok draftNoPriceText }
      draftNoPriceText draftNoPriceKvs invPayloadNoPrice
      rfl rfl rfl rfl rfl rfl (by decide) rfl rfl rfl rfl rfl
      (fun h => Option.noConfusion
        ((show jLookup draftNoPriceKvs "title".toList =
            some (.str "T".toList) from rfl).symm.trans h))
      (Or.inl rfl),
   missing_price_keys_internal_error_after_offer.2 envSuccess
      (.str "Vintage Leather Jacket".toList) (.num (mkRat 45 1))
      (.str "USD".toList) "SKU-AB12CD34".toList "5001234567".toList
      [Call.gemini, Call.uploadPost,
       Call.inventoryPut "SKU-AB12CD34".toList invPayloadFull,
       Call.offerPost offerPayloadFull]
      rfl⟩

end EbayLister
